import Mathlib

set_option maxRecDepth 100000

/-!
Verification development for the map/weather tool-dispatch repository.

The Python sources are shallowly embedded:

* `weather_agent.py` — the JSON value model, a JSON parser standing for
  `json.loads`, the balanced-brace scanner of
  `WeatherServicesAgent.process_query`, and the query/response pipeline.
  The two LLM completion calls are modelled as injected pure functions
  (`llm_output` for the decision call, `fmt` for the formatting call);
  tool execution is an injected `tools` function returning `Except`,
  standing for a call that may raise.
* `map_servers/poi_server.py` — `POIResult`, the mock POI table,
  `search_nearby`, `search_by_category`.
* `map_servers/routing_server.py` — `RouteStep`, `RouteResult`,
  `calculate_route`, and the Haversine distance.
* `map_servers/geocoding_server.py` — `reverse_geocode` validation and
  `batch_geocode`.

Float arithmetic is modelled over `ℝ` (or a generic linear ordered field
where the logic is independent of the number type, so that witnesses can
be evaluated over `ℚ`).
-/

/-- JSON values as produced by `json.loads`.  Numeric literals are kept
verbatim as their lexemes: the agent code never interprets a numeric value
itself, it only forwards parsed values. -/
inductive Json where
  | null : Json
  | bool (b : Bool) : Json
  | num (lexeme : String) : Json
  | str (s : String) : Json
  | arr (elems : List Json) : Json
  | obj (members : List (String × Json)) : Json

/-- Whitespace accepted between JSON tokens (RFC 8259, as in Python's
`json` module). -/
def isJsonWs (c : Char) : Bool :=
  c = ' ' ∨ c = '\t' ∨ c = '\n' ∨ c = '\r'

/-- Drop leading JSON whitespace. -/
def skipWs : List Char → List Char
  | [] => []
  | c :: cs => if isJsonWs c then skipWs cs else c :: cs

/-- Single-character string escapes of JSON. -/
def escapeChar (c : Char) : Option Char :=
  if c = '\"' then some '\"'
  else if c = '\\' then some '\\'
  else if c = '/' then some '/'
  else if c = 'b' then some '\x08'
  else if c = 'f' then some '\x0C'
  else if c = 'n' then some '\n'
  else if c = 'r' then some '\r'
  else if c = 't' then some '\t'
  else none

/-- Value of a hexadecimal digit. -/
def hexVal (c : Char) : Option Nat :=
  if '0' ≤ c ∧ c ≤ '9' then some (c.toNat - '0'.toNat)
  else if 'a' ≤ c ∧ c ≤ 'f' then some (c.toNat - 'a'.toNat + 10)
  else if 'A' ≤ c ∧ c ≤ 'F' then some (c.toNat - 'A'.toNat + 10)
  else none

/-- Parse the body of a JSON string (the opening quote already consumed),
returning the decoded string and the input following the closing quote.
Unescaped control characters are rejected, as in Python's `json.loads`. -/
def parseStringBody : List Char → Option (String × List Char)
  | [] => none
  | c :: cs =>
    if c = '\"' then some ("", cs)
    else if c = '\\' then
      match cs with
      | [] => none
      | e :: cs2 =>
        if e = 'u' then
          match cs2 with
          | h1 :: h2 :: h3 :: h4 :: cs3 =>
            match hexVal h1, hexVal h2, hexVal h3, hexVal h4 with
            | some a, some b, some c3, some d =>
              match parseStringBody cs3 with
              | some (s, r) =>
                some (⟨Char.ofNat (((a * 16 + b) * 16 + c3) * 16 + d) :: s.data⟩, r)
              | none => none
            | _, _, _, _ => none
          | _ => none
        else
          match escapeChar e with
          | some ec =>
            match parseStringBody cs2 with
            | some (s, r) => some (⟨ec :: s.data⟩, r)
            | none => none
          | none => none
    else if c.toNat < 32 then none
    else
      match parseStringBody cs with
      | some (s, r) => some (⟨c :: s.data⟩, r)
      | none => none

/-- Longest prefix of decimal digits. -/
def spanDigits : List Char → (List Char × List Char)
  | [] => ([], [])
  | c :: cs =>
    if c.isDigit then
      let (ds, r) := spanDigits cs
      (c :: ds, r)
    else ([], c :: cs)

/-- Integer part of a JSON number (sign already consumed): `0` or a
nonzero digit followed by digits; leading zeros are rejected. -/
def parseIntPart : List Char → Option (List Char × List Char)
  | [] => none
  | c :: cs =>
    if c = '0' then some (['0'], cs)
    else if c.isDigit then
      let (ds, r) := spanDigits cs
      some (c :: ds, r)
    else none

/-- Optional fraction part `.digits` of a JSON number. -/
def parseFracPart (cs : List Char) : Option (List Char × List Char) :=
  match cs with
  | '.' :: t =>
    let (ds, r) := spanDigits t
    if ds = [] then none else some ('.' :: ds, r)
  | _ => some ([], cs)

/-- Optional exponent part of a JSON number. -/
def parseExpPart (cs : List Char) : Option (List Char × List Char) :=
  match cs with
  | e :: t =>
    if e = 'e' ∨ e = 'E' then
      match t with
      | s :: t2 =>
        if s = '+' ∨ s = '-' then
          let (ds, r) := spanDigits t2
          if ds = [] then none else some (e :: s :: ds, r)
        else
          let (ds, r) := spanDigits t
          if ds = [] then none else some (e :: ds, r)
      | [] => none
    else some ([], cs)
  | [] => some ([], cs)

/-- Parse a JSON numeric literal, keeping its lexeme. -/
def parseNumber (cs : List Char) : Option (String × List Char) :=
  let (sign, cs1) :=
    match cs with
    | '-' :: t => (['-'], t)
    | _ => (([] : List Char), cs)
  match parseIntPart cs1 with
  | none => none
  | some (ip, r1) =>
    match parseFracPart r1 with
    | none => none
    | some (fp, r2) =>
      match parseExpPart r2 with
      | none => none
      | some (ep, r3) => some (⟨sign ++ ip ++ fp ++ ep⟩, r3)

/-- Recursive-descent JSON parser (fuel-indexed, structural on the fuel
so that it reduces definitionally), modelling the grammar accepted by
Python's `json.loads` with default settings, including the `NaN` /
`Infinity` / `-Infinity` extensions.  `mode` selects the production:
`0` parses one value, `1` parses the members after an object's opening
brace (returned wrapped in `Json.obj`), `2` parses the elements after an
array's opening bracket (returned wrapped in `Json.arr`). -/
def parseCore : Nat → Nat → List Char → Option (Json × List Char)
  | 0, _, _ => none
  | fuel + 1, 0, cs =>
    (match skipWs cs with
     | [] => none
     | '\x7b' :: rest =>
       (match skipWs rest with
        | '\x7d' :: r2 => some (.obj [], r2)
        | r2 =>
          match parseCore fuel 1 r2 with
          | some (ms, r3) => some (ms, r3)
          | none => none)
     | '[' :: rest =>
       (match skipWs rest with
        | ']' :: r2 => some (.arr [], r2)
        | r2 =>
          match parseCore fuel 2 r2 with
          | some (es, r3) => some (es, r3)
          | none => none)
     | '\"' :: rest =>
       (match parseStringBody rest with
        | some (s, r2) => some (.str s, r2)
        | none => none)
     | 't' :: 'r' :: 'u' :: 'e' :: r => some (.bool true, r)
     | 'f' :: 'a' :: 'l' :: 's' :: 'e' :: r => some (.bool false, r)
     | 'n' :: 'u' :: 'l' :: 'l' :: r => some (.null, r)
     | 'N' :: 'a' :: 'N' :: r => some (.num "NaN", r)
     | 'I' :: 'n' :: 'f' :: 'i' :: 'n' :: 'i' :: 't' :: 'y' :: r => some (.num "Infinity", r)
     | '-' :: 'I' :: 'n' :: 'f' :: 'i' :: 'n' :: 'i' :: 't' :: 'y' :: r =>
       some (.num "-Infinity", r)
     | cs2 =>
       match parseNumber cs2 with
       | some (s, r) => some (.num s, r)
       | none => none)
  | fuel + 1, 1, cs =>
    (match skipWs cs with
     | '\"' :: rest =>
       (match parseStringBody rest with
        | some (key, r1) =>
          (match skipWs r1 with
           | ':' :: r2 =>
             (match parseCore fuel 0 r2 with
              | some (v, r3) =>
                (match skipWs r3 with
                 | ',' :: r4 =>
                   (match parseCore fuel 1 r4 with
                    | some (.obj ms, r5) => some (.obj ((key, v) :: ms), r5)
                    | _ => none)
                 | '\x7d' :: r4 => some (.obj [(key, v)], r4)
                 | _ => none)
              | none => none)
           | _ => none)
        | none => none)
     | _ => none)
  | fuel + 1, _, cs =>
    (match parseCore fuel 0 cs with
     | some (v, r1) =>
       (match skipWs r1 with
        | ',' :: r2 =>
          (match parseCore fuel 2 r2 with
           | some (.arr es, r3) => some (.arr (v :: es), r3)
           | _ => none)
        | ']' :: r2 => some (.arr [v], r2)
        | _ => none)
     | none => none)

/-- Parse one JSON value. -/
def parseVal (fuel : Nat) (cs : List Char) : Option (Json × List Char) :=
  parseCore fuel 0 cs

/-- Run the JSON parser on a full character list, requiring only trailing
whitespace after the value, as `json.loads` does. -/
def json_loads_chars (cs : List Char) : Option Json :=
  match parseVal (cs.length + 1) cs with
  | some (j, rest) => if skipWs rest = [] then some j else none
  | none => none

/-- Model of `json.loads` on a string. -/
def json_loads (s : String) : Option Json := json_loads_chars s.data

/-- Python `str.strip()`: drop leading and trailing whitespace. -/
def py_strip (s : String) : String :=
  ⟨(((s.data.dropWhile Char.isWhitespace).reverse).dropWhile Char.isWhitespace).reverse⟩

/-- Python `str.lower()` (ASCII case folding, which is all the sentinel
words need). -/
def py_lower (s : String) : String := ⟨s.data.map Char.toLower⟩

/-- Slice `full[a:b]` of a character list, as Python string slicing. -/
def sliceList (full : List Char) (a b : Nat) : List Char :=
  (full.drop a).take (b - a)

/-- Balanced-brace scanner of `WeatherServicesAgent.process_query`
(lines 143-160): walk the characters with a brace counter and a start
index; each time the counter returns to zero try `json.loads` on the
slice from the first opening brace; on parse failure keep scanning.
Returns the parsed candidate, or `none` for the for-else
`raise json.JSONDecodeError`. -/
def scanLoop (full : List Char) : List Char → Nat → Int → Option Nat → Option Json
  | [], _, _, _ => none
  | c :: rest, i, bc, si =>
    if c = '\x7b' then
      scanLoop full rest (i + 1) (bc + 1) (some (si.getD i))
    else if c = '\x7d' then
      if bc - 1 = 0 ∧ si.isSome then
        match json_loads_chars (sliceList full (si.getD 0) (i + 1)) with
        | some j => some j
        | none => scanLoop full rest (i + 1) (bc - 1) si
      else scanLoop full rest (i + 1) (bc - 1) si
    else scanLoop full rest (i + 1) bc si

/-- Scan a raw LLM output for an embedded JSON object, as in
`process_query`'s `except json.JSONDecodeError` recovery branch. -/
def scanJson (s : String) : Option Json := scanLoop s.data s.data 0 0 none

/-- Tool-selection parsing of `process_query` (lines 137-160): strict
`json.loads(llm_response.strip())` first, then the balanced-brace scan of
the unstripped output; `none` models the `json.JSONDecodeError` that the
outer handler turns into the "please rephrase" reply. -/
def parse_tool_selection (s : String) : Option Json :=
  match json_loads (py_strip s) with
  | some j => some j
  | none => scanJson s

/-- Lookup in a parsed JSON object, as on a Python `dict` built by
`json.loads`: with duplicate keys the last binding wins. -/
def dictGet (kvs : List (String × Json)) (k : String) : Option Json :=
  (kvs.reverse.find? (fun p => p.1 = k)).map (·.2)

/-- Python `str()` of a decoded JSON value as it appears in the
`f"Unknown tool: {tool_name}"` message.  Only the hashable cases are ever
rendered by the agent (`list` / `dict` raise `TypeError` on the registry
membership test first).  `none` is the missing-key case, rendered
`"None"`. -/
def py_str : Option Json → String
  | none => "None"
  | some .null => "None"
  | some (.bool true) => "True"
  | some (.bool false) => "False"
  | some (.num s) => s
  | some (.str s) => s
  | some (.arr _) => "<list>"
  | some (.obj _) => "<dict>"

/-- Python type name of a decoded JSON value, used in exception texts. -/
def py_type_name : Json → String
  | .null => "NoneType"
  | .bool _ => "bool"
  | .num _ => "float"
  | .str _ => "str"
  | .arr _ => "list"
  | .obj _ => "dict"

/-- Registered tool names of `WeatherServicesAgent.tool_functions`. -/
def weather_tool_names : List String :=
  ["get_current_weather", "get_forecast", "get_daily_summary",
   "get_air_quality", "get_pollution_forecast"]

/-- Reply of the `except json.JSONDecodeError` handler in
`process_query`. -/
def rephrase_message : String :=
  "I had trouble understanding the request. Could you please rephrase your question about weather or air quality?"

/-- Reply of the catch-all `except Exception as e` handler in
`process_query`. -/
def generic_error_message (cause : String) : String :=
  "Sorry, I encountered an error: " ++ cause

/-- Kind of exception raised by a tool invocation.  The outer handlers
of `process_query` discriminate on the class: `json.JSONDecodeError` is
caught by the dedicated handler at line 189 (reachable from a tool, e.g.
`response.json()` on a malformed provider payload in the forecast and
air-quality tools, which is not caught locally there); every other
exception reaches the catch-all `except Exception` at line 191. -/
inductive PyExc where
  | json_decode (msg : String) : PyExc
  | other (msg : String) : PyExc

/-- Reply chosen by `process_query`'s exception handlers for an
exception propagating out of the tool call: `except json.JSONDecodeError`
(line 189, declared first) answers with the rephrase reply, the
catch-all `except Exception as e` (line 191) with the generic reply
carrying `str(e)`. -/
def tool_error_reply : PyExc → String
  | .json_decode _ => rephrase_message
  | .other msg => generic_error_message msg

/-- Execution and formatting stage of `process_query` (lines 170-187),
reached once the selected tool name is in the registry: unpack the
`"parameters"` mapping (a non-mapping raises `TypeError` at the `**`
call), invoke the tool, and on success make the second, formatting LLM
call; a tool exception falls to whichever outer handler matches its
class (`tool_error_reply`). -/
def run_selected_tool
    (tools : String → List (String × Json) → Except PyExc String)
    (fmt : String → String → String → String)
    (user_query s : String) (kvs : List (String × Json)) : String :=
  match (dictGet kvs "parameters").getD (.obj []) with
  | .obj pkvs =>
    (match tools s pkvs with
     | .ok result => fmt user_query s result
     | .error e => tool_error_reply e)
  | v =>
    generic_error_message
      ("argument after ** must be a mapping, not " ++ py_type_name v)

/-- Tool-name validation stage of `process_query` (lines 162-168):
`tool_call.get("tool")` followed by the registry membership test.  A
missing key or a non-string scalar fails the membership test and yields
the `Unknown tool:` reply; an unhashable value (`list`/`dict`) raises
`TypeError` at the membership test and falls to the catch-all handler. -/
def handle_tool_field (registry : List String)
    (tools : String → List (String × Json) → Except PyExc String)
    (fmt : String → String → String → String)
    (user_query : String) (kvs : List (String × Json)) : String :=
  match dictGet kvs "tool" with
  | some (.str s) =>
    if s ∈ registry then run_selected_tool tools fmt user_query s kvs
    else "Unknown tool: " ++ s
  | some (.arr _) => generic_error_message "unhashable type: 'list'"
  | some (.obj _) => generic_error_message "unhashable type: 'dict'"
  | v => "Unknown tool: " ++ py_str v

/-- Dispatch on the outcome of tool-selection parsing: a parse failure is
the `json.JSONDecodeError` handler's reply; a parsed non-object raises
`AttributeError` at `tool_call.get` and falls to the catch-all
handler. -/
def handle_selection (registry : List String)
    (tools : String → List (String × Json) → Except PyExc String)
    (fmt : String → String → String → String)
    (user_query : String) : Option Json → String
  | none => rephrase_message
  | some (.obj kvs) => handle_tool_field registry tools fmt user_query kvs
  | some other =>
    generic_error_message
      ("'" ++ py_type_name other ++ "' object has no attribute 'get'")

/-- Model of `WeatherServicesAgent.process_query` after the decision LLM
call returned `llm_output`.  `registry` models the keys of
`self.tool_functions`; `tools` models invoking the selected tool (an
`Except` for a call that may raise); `fmt` models the second, formatting
LLM call on (user query, tool name, tool result). -/
def process_query (registry : List String)
    (tools : String → List (String × Json) → Except PyExc String)
    (fmt : String → String → String → String)
    (user_query llm_output : String) : String :=
  handle_selection registry tools fmt user_query (parse_tool_selection llm_output)

/-- Model of `WeatherServicesAgent.interactive_session`: consume input
lines, stop on a sentinel word, skip empty lines, otherwise reply with
`respond` and continue; the returned list is the sequence of agent
replies. -/
def interactive_session (respond : String → String) : List String → List String
  | [] => []
  | line :: rest =>
    if py_lower (py_strip line) = "exit" ∨ py_lower (py_strip line) = "quit" ∨
        py_lower (py_strip line) = "bye" then []
    else if py_strip line = "" then interactive_session respond rest
    else respond (py_strip line) :: interactive_session respond rest

/-- Record for a single point of interest (`poi_server.POIResult`),
generic over the number type standing for Python floats. -/
structure POIResult (α : Type) where
  name : String
  category : String
  latitude : α
  longitude : α
  address : Option String := none
  rating : Option α := none
  price_level : Option ℕ := none
  phone : Option String := none
  website : Option String := none
  opening_hours : Option (List String) := none
  distance_meters : Option α := none
  description : Option String := none
deriving DecidableEq

/-- Mock POI database of `POIServer._initialize_mock_pois`. -/
def mock_pois (α : Type) [LinearOrderedField α] : List (POIResult α) :=
  [{ name := "Central Park", category := "park",
     latitude := 40.7829, longitude := -73.9654,
     address := some "New York, NY 10024", rating := some 4.8,
     description := some "Iconic urban park with lakes, theaters, playgrounds, and more" },
   { name := "Empire State Building", category := "landmark",
     latitude := 40.7484, longitude := -73.9857,
     address := some "350 5th Ave, New York, NY 10118", rating := some 4.7,
     price_level := some 3, website := some "https://www.esbnyc.com",
     description := some "Iconic Art Deco skyscraper with observation decks" },
   { name := "Joe's Pizza", category := "restaurant",
     latitude := 40.7308, longitude := -74.0023,
     address := some "7 Carmine St, New York, NY 10014", rating := some 4.5,
     price_level := some 1, phone := some "+1 212-366-1182",
     opening_hours := some ["Mon-Sun: 10:00 AM - 4:00 AM"],
     description := some "Classic New York-style pizza joint" },
   { name := "The Metropolitan Museum of Art", category := "museum",
     latitude := 40.7794, longitude := -73.9632,
     address := some "1000 5th Ave, New York, NY 10028", rating := some 4.8,
     price_level := some 2, website := some "https://www.metmuseum.org",
     opening_hours := some ["Sun-Thu: 10:00 AM - 5:00 PM", "Fri-Sat: 10:00 AM - 9:00 PM"],
     description := some "One of the world's largest and finest art museums" },
   { name := "Starbucks Reserve Roastery", category := "cafe",
     latitude := 40.7411, longitude := -73.9897,
     address := some "61 9th Ave, New York, NY 10011", rating := some 4.6,
     price_level := some 3, opening_hours := some ["Mon-Sun: 7:00 AM - 11:00 PM"],
     description := some "Upscale coffee experience with rare roasts" },
   { name := "Times Square", category := "landmark",
     latitude := 40.7580, longitude := -73.9855,
     address := some "Manhattan, NY 10036", rating := some 4.4,
     description := some "Iconic intersection known for bright lights and Broadway theaters" },
   { name := "Brooklyn Bridge Park", category := "park",
     latitude := 40.7009, longitude := -73.9969,
     address := some "Brooklyn, NY 11201", rating := some 4.7,
     description := some "Waterfront park with stunning Manhattan skyline views" },
   { name := "Grand Central Terminal", category := "transit_station",
     latitude := 40.7527, longitude := -73.9772,
     address := some "89 E 42nd St, New York, NY 10017", rating := some 4.6,
     description := some "Historic train station and architectural landmark" }]

/-- Category filter of `search_nearby`: `category is None or
poi.category == category`. -/
def category_ok (category : Option String) (c : String) : Prop :=
  category = none ∨ category = some c

instance (category : Option String) (c : String) : Decidable (category_ok category c) := by
  unfold category_ok; infer_instance

/-- Sort key of `search_nearby` / `search_text`:
`x.distance_meters or float('inf')`.  Python's `or` falls through to
infinity both when the field is `None` and when it is (falsy) `0.0`. -/
def sort_key {α : Type} [LinearOrderedCommRing α] (p : POIResult α) : WithTop α :=
  match p.distance_meters with
  | none => ⊤
  | some d => if d = 0 then ⊤ else (d : WithTop α)

/-- Comparison used to sort `search_nearby` results. -/
def dist_le {α : Type} [LinearOrderedCommRing α] (a b : POIResult α) : Prop :=
  sort_key a ≤ sort_key b

instance {α : Type} [LinearOrderedCommRing α] : DecidableRel (dist_le (α := α)) :=
  fun a b => inferInstanceAs (Decidable (sort_key a ≤ sort_key b))

instance {α : Type} [LinearOrderedCommRing α] : IsTotal (POIResult α) dist_le :=
  ⟨fun a b => le_total (sort_key a) (sort_key b)⟩

instance {α : Type} [LinearOrderedCommRing α] : IsTrans (POIResult α) dist_le :=
  ⟨fun _ _ _ h1 h2 => le_trans h1 h2⟩

/-- Filtering pass of `POIServer.search_nearby` (lines 218-231): for each
mock POI compute its distance from the centre and keep a copy with
`distance_meters` populated when it is within the radius and matches the
category filter.  `dist` stands for `self._calculate_distance`. -/
def search_nearby_all {α : Type} [LinearOrderedCommRing α]
    (dist : α → α → α → α → α) (pois : List (POIResult α))
    (latitude longitude radius_meters : α) (category : Option String) :
    List (POIResult α) :=
  pois.filterMap (fun poi =>
    if dist latitude longitude poi.latitude poi.longitude ≤ radius_meters ∧
        category_ok category poi.category then
      some { poi with
             distance_meters := some (dist latitude longitude poi.latitude poi.longitude) }
    else none)

/-- Model of `POIServer.search_nearby` (lines 179-236): filter by radius
and category, sort by the `distance or inf` key with a stable sort
(Python's `list.sort`), and truncate to `limit`. -/
def search_nearby {α : Type} [LinearOrderedCommRing α]
    (dist : α → α → α → α → α) (pois : List (POIResult α))
    (latitude longitude radius_meters : α) (category : Option String)
    (limit : ℕ) : List (POIResult α) :=
  (List.insertionSort dist_le
    (search_nearby_all dist pois latitude longitude radius_meters category)).take limit

/-- Filter loop of `POIServer.search_by_category` (lines 370-383): a POI
is dropped when `min_rating` is supplied and its rating is missing or too
low, or when `max_price_level` is supplied and its price level is present
and too high. -/
def apply_filters {α : Type} [LinearOrderedCommRing α]
    (min_rating : Option α) (max_price_level : Option ℕ)
    (pois : List (POIResult α)) : List (POIResult α) :=
  pois.filter (fun poi =>
    (match min_rating with
     | none => true
     | some m =>
       match poi.rating with
       | none => false
       | some rv => decide (m ≤ rv)) &&
    (match max_price_level with
     | none => true
     | some mp =>
       match poi.price_level with
       | none => true
       | some pv => decide (pv ≤ mp)))

/-- Model of `POIServer.search_by_category` (lines 334-385): run
`search_nearby` with `limit=100`, apply the rating/price filters, and
truncate to `limit`. -/
def search_by_category {α : Type} [LinearOrderedCommRing α]
    (dist : α → α → α → α → α) (pois : List (POIResult α))
    (category : String) (latitude longitude radius_meters : α)
    (min_rating : Option α) (max_price_level : Option ℕ) (limit : ℕ) :
    List (POIResult α) :=
  (apply_filters min_rating max_price_level
    (search_nearby dist pois latitude longitude radius_meters (some category) 100)).take limit

/-- Result record of the geocoding server (`GeocodingResult`).  The
source builds `address` with an f-string embedding the coordinates; here
it is kept abstract as a plain string field. -/
structure GeocodingResult (α : Type) where
  address : String
  latitude : α
  longitude : α
  confidence : α
  place_type : Option String := none
  country : Option String := none
  city : Option String := none

/-- Coordinate-range `ValueError`s raised by
`GeocodingServer.reverse_geocode` (lines 135-139).  The Python messages
embed the offending value; only the kind is modelled. -/
inductive CoordError where
  | invalid_latitude : CoordError
  | invalid_longitude : CoordError
deriving DecidableEq

/-- Model of `GeocodingServer.reverse_geocode`: validate the coordinate
ranges before anything else (in the source, before the HTTP session is
even created), then return the simulated result. -/
def reverse_geocode {α : Type} [LinearOrderedField α] (latitude longitude : α) :
    Except CoordError (GeocodingResult α) :=
  if ¬(-90 ≤ latitude ∧ latitude ≤ 90) then .error .invalid_latitude
  else if ¬(-180 ≤ longitude ∧ longitude ≤ 180) then .error .invalid_longitude
  else .ok { address := "Simulated address", latitude := latitude,
             longitude := longitude, confidence := 0.8,
             place_type := some "building",
             country := some "United States", city := some "New York" }

/-- Model of `GeocodingServer.batch_geocode` (lines 184-214): one
`forward_geocode` outcome per address, gathered with
`return_exceptions=True` so that the outcomes arrive in input order, then
each exception is replaced by an empty result list.  `fg` stands for the
per-address `forward_geocode` call (`Except` for a call that may
raise). -/
def batch_geocode {α : Type}
    (fg : String → Except String (List (GeocodingResult α)))
    (addresses : List String) : List (List (GeocodingResult α)) :=
  addresses.map (fun addr =>
    match fg addr with
    | .ok rs => rs
    | .error _ => [])

/-- Transportation modes of `RoutingServer.calculate_route`
(`Literal["driving", "walking", "cycling", "transit"]`). -/
inductive TransportMode where
  | driving : TransportMode
  | walking : TransportMode
  | cycling : TransportMode
  | transit : TransportMode
deriving DecidableEq

/-- Speed table of `calculate_route` (`speed_kmh`, with default 50 —
every literal mode is present in the dict, so the default is dead). -/
def speed_kmh {α : Type} [LinearOrderedField α] : TransportMode → α
  | .driving => 50
  | .walking => 5
  | .cycling => 15
  | .transit => 30

/-- Single step of a route (`RouteStep`). -/
structure RouteStep (α : Type) where
  instruction : String
  distance_meters : α
  duration_seconds : α
  start_location : α × α
  end_location : α × α
  maneuver : Option String := none

/-- Route result (`RouteResult`).  The source renders `origin`,
`destination` and `polyline` with f-strings over the coordinates; here
the coordinate pairs are kept directly. -/
structure RouteResult (α : Type) where
  origin : α × α
  destination : α × α
  distance_meters : α
  duration_seconds : α
  steps : List (RouteStep α)
  mode : TransportMode
  polyline : Option String := none
  warnings : List String := []

/-- Model of `RoutingServer.calculate_route` (lines 81-175), generic in
the distance function standing for `self._calculate_haversine_distance`:
total distance is the Haversine distance, duration is distance over the
mode's speed, and the three mock steps split the totals 0.3/0.5/0.2
along the straight line. -/
def calculate_route_gen {α : Type} [LinearOrderedField α]
    (dist : α → α → α → α → α)
    (origin_lat origin_lon dest_lat dest_lon : α) (mode : TransportMode) :
    RouteResult α :=
  let distance := dist origin_lat origin_lon dest_lat dest_lon
  let duration := distance / 1000 / speed_kmh mode * 3600
  { origin := (origin_lat, origin_lon),
    destination := (dest_lat, dest_lon),
    distance_meters := distance,
    duration_seconds := duration,
    steps :=
      [{ instruction := "Head north on Main Street",
         distance_meters := distance * 0.3,
         duration_seconds := duration * 0.3,
         start_location := (origin_lat, origin_lon),
         end_location := (origin_lat + (dest_lat - origin_lat) * 0.3,
                          origin_lon + (dest_lon - origin_lon) * 0.3),
         maneuver := some "depart" },
       { instruction := "Turn right onto Broadway",
         distance_meters := distance * 0.5,
         duration_seconds := duration * 0.5,
         start_location := (origin_lat + (dest_lat - origin_lat) * 0.3,
                            origin_lon + (dest_lon - origin_lon) * 0.3),
         end_location := (origin_lat + (dest_lat - origin_lat) * 0.8,
                          origin_lon + (dest_lon - origin_lon) * 0.8),
         maneuver := some "turn-right" },
       { instruction := "Arrive at destination",
         distance_meters := distance * 0.2,
         duration_seconds := duration * 0.2,
         start_location := (origin_lat + (dest_lat - origin_lat) * 0.8,
                            origin_lon + (dest_lon - origin_lon) * 0.8),
         end_location := (dest_lat, dest_lon),
         maneuver := some "arrive" }],
    mode := mode,
    polyline := some "mock_polyline",
    warnings := ["This is a simulated route. Replace with actual API for production."] }

/-- Degrees to radians, as `math.radians`. -/
noncomputable def radians (x : ℝ) : ℝ := x * (Real.pi / 180)

/-- Two-argument arctangent, as `math.atan2(y, x)`. -/
noncomputable def atan2 (y x : ℝ) : ℝ :=
  if 0 < x then Real.arctan (y / x)
  else if x < 0 then
    (if 0 ≤ y then Real.arctan (y / x) + Real.pi
     else Real.arctan (y / x) - Real.pi)
  else if 0 < y then Real.pi / 2
  else if y < 0 then -(Real.pi / 2)
  else 0

/-- Haversine parameter `a` of
`RoutingServer._calculate_haversine_distance` (lines 61-79). -/
noncomputable def hav_a (lat1 lon1 lat2 lon2 : ℝ) : ℝ :=
  Real.sin (radians (lat2 - lat1) / 2) ^ 2 +
    Real.cos (radians lat1) * Real.cos (radians lat2) *
      Real.sin (radians (lon2 - lon1) / 2) ^ 2

/-- Haversine distance of
`RoutingServer._calculate_haversine_distance`; the identical formula is
repeated as `POIServer._calculate_distance` (poi_server.py lines
162-177). -/
noncomputable def calculate_haversine_distance (lat1 lon1 lat2 lon2 : ℝ) : ℝ :=
  6371000 *
    (2 * atan2 (Real.sqrt (hav_a lat1 lon1 lat2 lon2))
               (Real.sqrt (1 - hav_a lat1 lon1 lat2 lon2)))

/-- Model of `RoutingServer.calculate_route` over the reals with the
actual Haversine distance plugged in. -/
noncomputable def calculate_route
    (origin_lat origin_lon dest_lat dest_lon : ℝ) (mode : TransportMode) :
    RouteResult ℝ :=
  calculate_route_gen calculate_haversine_distance
    origin_lat origin_lon dest_lat dest_lon mode

/-- Substring test used to state that an error reply does not mention the
tool name. -/
def leads_with : List Char → List Char → Bool
  | [], _ => true
  | _ :: _, [] => false
  | a :: as, b :: bs => a = b && leads_with as bs

/-- List version of the substring test. -/
def list_has_sub (needle : List Char) : List Char → Bool
  | [] => leads_with needle []
  | c :: rest => leads_with needle (c :: rest) || list_has_sub needle rest

/-- String containment (needle occurs contiguously in hay). -/
def str_contains (hay needle : String) : Bool :=
  list_has_sub needle.data hay.data

/-- Spec's prose-embedded decision example (§8). -/
def prose_example : String :=
  "Sure! \x7b\"tool\": \"get_current_weather\", \"parameters\": \x7b\"location\": \"London\"\x7d\x7d Hope that helps"

/-- Decision output that is valid JSON but lacks a `"tool"` key. -/
def missing_tool_example : String :=
  "\x7b\"parameters\": \x7b\"location\": \"London\"\x7d\x7d"

/-- Decision output naming a tool that is not registered. -/
def unknown_tool_example : String :=
  "\x7b\"tool\": \"dance\", \"parameters\": \x7b\x7d\x7d"

/-- Well-formed decision output naming a registered tool. -/
def weather_tool_example : String :=
  "\x7b\"tool\": \"get_current_weather\", \"parameters\": \x7b\"location\": \"London\"\x7d\x7d"

/-- Success test on an `Except`, used to state validation contracts. -/
def except_ok {ε β : Type} : Except ε β → Bool
  | .ok _ => true
  | .error _ => false

/-- Squared distance over `ℤ`, used to evaluate witnesses (any distance
function exercises the generic statements; rational/real arithmetic does
not reduce under `decide`, integer arithmetic does). -/
def sq_dist (a b c d : ℤ) : ℤ := (a - c) * (a - c) + (b - d) * (b - d)

/-- Small integer-coordinate POI table for witnesses. -/
def witness_pois : List (POIResult ℤ) :=
  [{ name := "A", category := "park", latitude := 0, longitude := 0 },
   { name := "B", category := "park", latitude := 3, longitude := 4,
     rating := some 4, price_level := some 2 },
   { name := "C", category := "cafe", latitude := 10, longitude := 0,
     rating := some 5 }]

/-- Claimed ordering property of `search_nearby` results: populated
distances are ascending along the list. -/
def ascending_by_distance {α : Type} [LinearOrderedCommRing α]
    (l : List (POIResult α)) : Prop :=
  List.Chain' (· ≤ ·) (l.filterMap POIResult.distance_meters)

/-- Central Park record as returned by `search_nearby` centred on its
own coordinates (distance 0). -/
noncomputable def cp_hit : POIResult ℝ :=
  { name := "Central Park", category := "park",
    latitude := 40.7829, longitude := -73.9654,
    address := some "New York, NY 10024", rating := some 4.8,
    distance_meters := some 0,
    description := some "Iconic urban park with lakes, theaters, playgrounds, and more" }

/-- Metropolitan Museum record as returned by `search_nearby` centred on
Central Park. -/
noncomputable def met_hit : POIResult ℝ :=
  { name := "The Metropolitan Museum of Art", category := "museum",
    latitude := 40.7794, longitude := -73.9632,
    address := some "1000 5th Ave, New York, NY 10028", rating := some 4.8,
    price_level := some 2, website := some "https://www.metmuseum.org",
    opening_hours := some ["Sun-Thu: 10:00 AM - 5:00 PM", "Fri-Sat: 10:00 AM - 9:00 PM"],
    distance_meters :=
      some (calculate_haversine_distance 40.7829 (-73.9654) 40.7794 (-73.9632)),
    description := some "One of the world's largest and finest art museums" }

/-- The balanced-brace scanner can only succeed at a closing brace, so an
output with no closing brace is never recovered. -/
theorem scanLoop_eq_none_of_no_close (full : List Char) :
    ∀ (l : List Char) (i : Nat) (bc : Int) (si : Option Nat),
      (∀ c ∈ l, c ≠ '\x7d') → scanLoop full l i bc si = none := by
  intro l
  induction l with
  | nil => intro i bc si _; rfl
  | cons c rest ih =>
    intro i bc si h
    have hc : c ≠ '\x7d' := h c (List.mem_cons_self c rest)
    have hrest : ∀ x ∈ rest, x ≠ '\x7d' := fun x hx => h x (List.mem_cons_of_mem c hx)
    by_cases hob : c = '\x7b'
    · simp only [scanLoop, if_pos hob]
      exact ih _ _ _ hrest
    · simp only [scanLoop, if_neg hob, if_neg hc]
      exact ih _ _ _ hrest

/-- C1 (amended).  Tool-selection parsing attempts the strict parse of
the stripped output first and otherwise falls back to the balanced-brace
scan: (1) the prose-embedded object of the spec's example is recovered
and drives the pipeline end to end; (2) the parse-failure reply arises
exactly when both the strict parse and the scan fail; (3) in particular
an output with no closing brace that is not itself valid JSON always
fails; (4) a successfully parsed object lacking a `"tool"` key does not
produce the parse-failure reply but the unknown-tool reply
`"Unknown tool: None"`. -/
theorem c1_tool_selection_parsing :
    (∀ (tools : String → List (String × Json) → Except PyExc String)
       (fmt : String → String → String → String) (q r : String),
       tools "get_current_weather" [("location", Json.str "London")] = .ok r →
       process_query weather_tool_names tools fmt q prose_example =
         fmt q "get_current_weather" r)
    ∧ (∀ s : String, parse_tool_selection s = none ↔
        (json_loads (py_strip s) = none ∧ scanJson s = none))
    ∧ (∀ s : String, (∀ c ∈ s.data, c ≠ '\x7d') → json_loads (py_strip s) = none →
        parse_tool_selection s = none)
    ∧ (∀ (reg : List String)
         (tools : String → List (String × Json) → Except PyExc String)
         (fmt : String → String → String → String) (q s : String)
         (kvs : List (String × Json)),
        parse_tool_selection s = some (.obj kvs) → dictGet kvs "tool" = none →
        process_query reg tools fmt q s = "Unknown tool: None") := by
  refine ⟨?_, ?_, ?_, ?_⟩
  · intro tools fmt q r h
    have step : process_query weather_tool_names tools fmt q prose_example =
        (match tools "get_current_weather" [("location", Json.str "London")] with
         | .ok result => fmt q "get_current_weather" result
         | .error e => tool_error_reply e) := rfl
    rw [step, h]
  · intro s
    cases h : json_loads (py_strip s) with
    | some j => simp [parse_tool_selection, h]
    | none => simp [parse_tool_selection, h]
  · intro s hc hstrict
    have hps : parse_tool_selection s = scanJson s := by
      simp [parse_tool_selection, hstrict]
    rw [hps]
    exact scanLoop_eq_none_of_no_close s.data s.data 0 0 none hc
  · intro reg tools fmt q s kvs hp htool
    unfold process_query
    rw [hp]
    show handle_tool_field reg tools fmt q kvs = _
    unfold handle_tool_field
    rw [htool]
    rfl

/-- Witness for C1: the prose example drives the pipeline into the
formatting call; an output with no closing brace fails; a parsed object
without a `"tool"` key gives the unknown-tool reply. -/
theorem c1_witness :
    (process_query weather_tool_names (fun _ _ => Except.ok "OK")
        (fun q t r => q ++ " | " ++ t ++ " | " ++ r) "w" prose_example =
      "w" ++ " | " ++ "get_current_weather" ++ " | " ++ "OK")
    ∧ parse_tool_selection "no json here" = none
    ∧ process_query [] (fun _ _ => Except.ok "") (fun _ _ _ => "") "w"
        missing_tool_example = "Unknown tool: None" := by
  refine ⟨?_, ?_, ?_⟩
  · exact c1_tool_selection_parsing.1 _ _ "w" "OK" rfl
  · exact c1_tool_selection_parsing.2.2.1 "no json here" (by decide) (by rfl)
  · exact c1_tool_selection_parsing.2.2.2 [] _ _ "w" missing_tool_example
      [("parameters", Json.obj [("location", Json.str "London")])] rfl rfl

/-- Counterexample for C1 as frozen: a decision output that parses but
lacks a `"tool"` key does not produce the parse-failure ("please
rephrase") reply demanded by the claim; it produces the unknown-tool
reply instead. -/
theorem c1_counterexample :
    process_query weather_tool_names (fun _ _ => Except.ok "")
        (fun _ _ _ => "") "w" missing_tool_example = "Unknown tool: None"
    ∧ "Unknown tool: None" ≠ rephrase_message := by
  exact ⟨rfl, by decide⟩

/-- C2 (amended).  A decision naming a tool that is not in the registry
(including the missing-field case covered by C1) is answered with the
`"Unknown tool: <name>"` reply — not the "please rephrase" reply, which
is reserved for parse failures — and the interactive loop prints the
reply and continues with the remaining input instead of crashing or
terminating. -/
theorem c2_unknown_tool_handling :
    (∀ (reg : List String)
       (tools : String → List (String × Json) → Except PyExc String)
       (fmt : String → String → String → String) (q llmOut : String)
       (kvs : List (String × Json)) (s : String),
       parse_tool_selection llmOut = some (.obj kvs) →
       dictGet kvs "tool" = some (.str s) →
       s ∉ reg →
       process_query reg tools fmt q llmOut = "Unknown tool: " ++ s)
    ∧ (∀ (respond : String → String) (line : String) (rest : List String),
       py_strip line = line → line ≠ "" →
       ¬(py_lower line = "exit" ∨ py_lower line = "quit" ∨ py_lower line = "bye") →
       interactive_session respond (line :: rest) =
         respond line :: interactive_session respond rest) := by
  constructor
  · intro reg tools fmt q llmOut kvs s hp htool hmem
    unfold process_query
    rw [hp]
    show handle_tool_field reg tools fmt q kvs = _
    unfold handle_tool_field
    rw [htool]
    show (if s ∈ reg then run_selected_tool tools fmt q s kvs
          else "Unknown tool: " ++ s) = _
    rw [if_neg hmem]
  · intro respond line rest htrim hne hsent
    show (if py_lower (py_strip line) = "exit" ∨ py_lower (py_strip line) = "quit" ∨
            py_lower (py_strip line) = "bye" then []
          else if py_strip line = "" then interactive_session respond rest
          else respond (py_strip line) :: interactive_session respond rest) = _
    rw [htrim, if_neg hsent, if_neg hne]

/-- Witness for C2: a concrete decision naming the unregistered tool
`"dance"` yields the unknown-tool reply, and the session then continues
with the rest of the input. -/
theorem c2_witness :
    process_query weather_tool_names (fun _ _ => Except.ok "")
        (fun _ _ _ => "") "q" unknown_tool_example = "Unknown tool: " ++ "dance"
    ∧ interactive_session (fun _ => "reply") ["hello", "exit"] =
        "reply" :: interactive_session (fun _ => "reply") ["exit"] := by
  constructor
  · exact c2_unknown_tool_handling.1 weather_tool_names _ _ "q"
      unknown_tool_example [("tool", Json.str "dance"), ("parameters", Json.obj [])]
      "dance" rfl rfl (by decide)
  · exact c2_unknown_tool_handling.2 (fun _ => "reply") "hello" ["exit"]
      rfl (by decide) (by decide)

/-- Counterexample for C2 as frozen: the reply produced for an unknown
tool is `"Unknown tool: dance"`, which is not the polite "please
rephrase" message the claim describes (that message is produced only for
parse failures). -/
theorem c2_counterexample :
    process_query weather_tool_names (fun _ _ => Except.ok "")
        (fun _ _ _ => "") "q" unknown_tool_example = "Unknown tool: dance"
    ∧ "Unknown tool: dance" ≠ rephrase_message := ⟨rfl, by decide⟩

/-- C3 (amended).  When the selected tool's invocation raises, the
pipeline skips the formatting step: the reply is independent of the
formatting model in both cases.  An exception other than
`json.JSONDecodeError` reaches the catch-all handler and yields
`"Sorry, I encountered an error: <cause>"` — naming the underlying
cause but not the failed tool — while a `json.JSONDecodeError`
propagating out of the tool call (e.g. `response.json()` on a malformed
provider payload, uncaught in the tool itself) is caught by the earlier
dedicated handler and yields the "please rephrase" reply instead. -/
theorem c3_tool_error_skips_formatting :
    ∀ (reg : List String)
      (tools : String → List (String × Json) → Except PyExc String)
      (fmt fmt2 : String → String → String → String) (q llmOut : String)
      (kvs pkvs : List (String × Json)) (s e : String),
      parse_tool_selection llmOut = some (.obj kvs) →
      dictGet kvs "tool" = some (.str s) →
      s ∈ reg →
      dictGet kvs "parameters" = some (.obj pkvs) →
      (tools s pkvs = .error (.other e) →
        process_query reg tools fmt q llmOut = generic_error_message e
        ∧ process_query reg tools fmt q llmOut = process_query reg tools fmt2 q llmOut)
      ∧ (tools s pkvs = .error (.json_decode e) →
        process_query reg tools fmt q llmOut = rephrase_message
        ∧ process_query reg tools fmt q llmOut = process_query reg tools fmt2 q llmOut) := by
  intro reg tools fmt fmt2 q llmOut kvs pkvs s e hp htool hmem hparams
  have key : ∀ (fmt3 : String → String → String → String) (exc : PyExc),
      tools s pkvs = .error exc →
      process_query reg tools fmt3 q llmOut = tool_error_reply exc := by
    intro fmt3 exc herr
    unfold process_query
    rw [hp]
    show handle_tool_field reg tools fmt3 q kvs = _
    unfold handle_tool_field
    rw [htool]
    show (if s ∈ reg then run_selected_tool tools fmt3 q s kvs
          else "Unknown tool: " ++ s) = _
    rw [if_pos hmem]
    unfold run_selected_tool
    rw [hparams]
    show (match tools s pkvs with
          | .ok result => fmt3 q s result
          | .error e2 => tool_error_reply e2) = _
    rw [herr]
  constructor
  · intro herr
    exact ⟨key fmt _ herr, (key fmt _ herr).trans (key fmt2 _ herr).symm⟩
  · intro herr
    exact ⟨key fmt _ herr, (key fmt _ herr).trans (key fmt2 _ herr).symm⟩

/-- Witness for C3: a concrete `get_current_weather` invocation raising
a generic exception produces the cause-only reply for any two formatting
models, and one raising `json.JSONDecodeError` produces the rephrase
reply. -/
theorem c3_witness :
    (process_query weather_tool_names (fun _ _ => Except.error (PyExc.other "boom"))
        (fun _ _ _ => "FORMATTED") "q" weather_tool_example =
      generic_error_message "boom"
     ∧ process_query weather_tool_names (fun _ _ => Except.error (PyExc.other "boom"))
        (fun _ _ _ => "FORMATTED") "q" weather_tool_example =
      process_query weather_tool_names (fun _ _ => Except.error (PyExc.other "boom"))
        (fun _ _ _ => "OTHER") "q" weather_tool_example)
    ∧ process_query weather_tool_names
        (fun _ _ => Except.error (PyExc.json_decode "bad payload"))
        (fun _ _ _ => "FORMATTED") "q" weather_tool_example = rephrase_message := by
  constructor
  · exact (c3_tool_error_skips_formatting weather_tool_names _ _ _ "q"
      weather_tool_example
      [("tool", Json.str "get_current_weather"),
       ("parameters", Json.obj [("location", Json.str "London")])]
      [("location", Json.str "London")] "get_current_weather" "boom"
      rfl rfl (by decide) rfl).1 rfl
  · exact ((c3_tool_error_skips_formatting weather_tool_names
      (fun _ _ => Except.error (PyExc.json_decode "bad payload"))
      (fun _ _ _ => "FORMATTED") (fun _ _ _ => "OTHER") "q"
      weather_tool_example
      [("tool", Json.str "get_current_weather"),
       ("parameters", Json.obj [("location", Json.str "London")])]
      [("location", Json.str "London")] "get_current_weather" "bad payload"
      rfl rfl (by decide) rfl).2 rfl).1

/-- Counterexample for C3 as frozen: the error reply for a failing
`get_current_weather` call does not contain the tool name, so the claim
that the message names "both the failed tool and the underlying cause"
fails on the code. -/
theorem c3_counterexample :
    process_query weather_tool_names (fun _ _ => Except.error (PyExc.other "boom"))
        (fun _ _ _ => "FORMATTED") "q" weather_tool_example =
      "Sorry, I encountered an error: boom"
    ∧ str_contains "Sorry, I encountered an error: boom" "get_current_weather" = false :=
  ⟨rfl, by decide⟩

/-- Widening the radius never drops a POI from the filtering pass of
`search_nearby`. -/
theorem search_nearby_all_length_mono {α : Type} [LinearOrderedCommRing α]
    (dist : α → α → α → α → α) (pois : List (POIResult α))
    (lat lon : α) {r1 r2 : α} (cat : Option String) (h : r1 ≤ r2) :
    (search_nearby_all dist pois lat lon r1 cat).length ≤
      (search_nearby_all dist pois lat lon r2 cat).length := by
  induction pois with
  | nil => simp [search_nearby_all]
  | cons p ps ih =>
    simp only [search_nearby_all, List.filterMap_cons] at ih ⊢
    by_cases h1 : dist lat lon p.latitude p.longitude ≤ r1 ∧ category_ok cat p.category
    · have h2 : dist lat lon p.latitude p.longitude ≤ r2 ∧ category_ok cat p.category :=
        ⟨le_trans h1.1 h, h1.2⟩
      rw [if_pos h1, if_pos h2]
      simpa using ih
    · rw [if_neg h1]
      by_cases h2 : dist lat lon p.latitude p.longitude ≤ r2 ∧ category_ok cat p.category
      · rw [if_pos h2]
        exact le_trans ih (by simp [Nat.le_succ])
      · rw [if_neg h2]
        exact ih

/-- Result count of `search_nearby` is the filtered count capped at
`limit`. -/
theorem search_nearby_length {α : Type} [LinearOrderedCommRing α]
    (dist : α → α → α → α → α) (pois : List (POIResult α))
    (lat lon radius : α) (cat : Option String) (limit : ℕ) :
    (search_nearby dist pois lat lon radius cat limit).length =
      min limit (search_nearby_all dist pois lat lon radius cat).length := by
  unfold search_nearby
  rw [List.length_take, List.length_insertionSort]

/-- C6.  For a fixed centre, category and limit at least the result
count at the larger radius, growing the radius never decreases the
number of records returned by `search_nearby` (the monotonicity in fact
holds without the limit hypothesis, since both counts are the monotone
filtered counts capped at the same limit). -/
theorem c6_radius_monotone (α : Type) [LinearOrderedCommRing α]
    (dist : α → α → α → α → α) (pois : List (POIResult α))
    (lat lon : α) (cat : Option String) (limit : ℕ) (r1 r2 : α)
    (hr : r1 ≤ r2)
    (hlim : (search_nearby_all dist pois lat lon r2 cat).length ≤ limit) :
    (search_nearby dist pois lat lon r1 cat limit).length ≤
      (search_nearby dist pois lat lon r2 cat limit).length := by
  rw [search_nearby_length, search_nearby_length]
  exact min_le_min le_rfl (search_nearby_all_length_mono dist pois lat lon cat hr)

/-- Witness for C6: with a concrete integer distance function, radius 0
returns one record and radius 25 returns two. -/
theorem c6_witness :
    (search_nearby sq_dist witness_pois 0 0 0 none 10).length ≤
      (search_nearby sq_dist witness_pois 0 0 25 none 10).length :=
  c6_radius_monotone ℤ sq_dist witness_pois 0 0 none 10 0 25
    (by decide) (by decide)

/-- C10.  The two optional filters of `search_by_category` treat missing
fields asymmetrically: with `min_rating` supplied, a POI with no rating
is excluded from the results; with `max_price_level` supplied (and no
rating filter), a POI with no price level passes the filter stage and is
in the results whenever the limit does not truncate it away. -/
theorem c10_optional_filter_asymmetry :
    (∀ (α : Type) [inst : LinearOrderedCommRing α] (dist : α → α → α → α → α)
       (pois : List (POIResult α)) (cat : String) (lat lon radius m : α)
       (mp : Option ℕ) (limit : ℕ) (p : POIResult α),
       p ∈ search_by_category dist pois cat lat lon radius (some m) mp limit →
       p.rating ≠ none)
    ∧ (∀ (α : Type) [inst : LinearOrderedCommRing α] (dist : α → α → α → α → α)
       (pois : List (POIResult α)) (cat : String) (lat lon radius : α)
       (mp : ℕ) (limit : ℕ) (p : POIResult α),
       p ∈ search_nearby dist pois lat lon radius (some cat) 100 →
       p.price_level = none →
       p ∈ apply_filters none (some mp)
          (search_nearby dist pois lat lon radius (some cat) 100)
       ∧ ((apply_filters none (some mp)
            (search_nearby dist pois lat lon radius (some cat) 100)).length ≤ limit →
          p ∈ search_by_category dist pois cat lat lon radius none (some mp) limit)) := by
  constructor
  · intro α inst dist pois cat lat lon radius m mp limit p hp hrn
    unfold search_by_category at hp
    have h1 := List.take_subset _ _ hp
    unfold apply_filters at h1
    rw [List.mem_filter] at h1
    have h2 := h1.2
    rw [hrn] at h2
    simp at h2
  · intro α inst dist pois cat lat lon radius mp limit p hp hprice
    have hmem : p ∈ apply_filters none (some mp)
        (search_nearby dist pois lat lon radius (some cat) 100) := by
      unfold apply_filters
      rw [List.mem_filter]
      refine ⟨hp, ?_⟩
      simp [hprice]
    refine ⟨hmem, fun hlen => ?_⟩
    unfold search_by_category
    rw [List.take_of_length_le hlen]
    exact hmem

/-- Witness for C10: over the integer POI table, with a rating filter
the rating-less record `A` never appears (every result has a rating, as
checked on record `B`), while with only a price filter the
price-level-less record `A` is in the results. -/
theorem c10_witness :
    ({ name := "B", category := "park", latitude := 3, longitude := 4,
       rating := some 4, price_level := some 2,
       distance_meters := some 25 } : POIResult ℤ).rating ≠ none
    ∧ ({ name := "A", category := "park", latitude := 0, longitude := 0,
         distance_meters := some 0 } : POIResult ℤ) ∈
        search_by_category sq_dist witness_pois "park" 0 0 25 none (some 3) 10 := by
  constructor
  · exact c10_optional_filter_asymmetry.1 ℤ sq_dist witness_pois "park" 0 0 25 1
      (some 3) 10 _ (by decide)
  · exact (c10_optional_filter_asymmetry.2 ℤ sq_dist witness_pois "park" 0 0 25 3
      10 _ (by decide) rfl).2 (by decide)

/-- C4 (amended).  Only `reverse_geocode` validates coordinate ranges:
it fails with the latitude range error whenever the latitude is out of
[-90, 90], with the longitude range error whenever the latitude is fine
and the longitude is out of [-180, 180], and succeeds exactly on
in-range inputs (in the source the check precedes even the creation of
the HTTP session).  The other coordinate-accepting operations perform no
validation: `calculate_route` on an out-of-range latitude still returns
its normal three-step route with the normal totals, and `search_nearby`
still returns its normal filtered result. -/
theorem c4_range_validation :
    (∀ (α : Type) [inst : LinearOrderedField α] (lat lon : α),
       (¬(-90 ≤ lat ∧ lat ≤ 90) →
         reverse_geocode lat lon = .error CoordError.invalid_latitude)
       ∧ ((-90 ≤ lat ∧ lat ≤ 90) → ¬(-180 ≤ lon ∧ lon ≤ 180) →
         reverse_geocode lat lon = .error CoordError.invalid_longitude)
       ∧ ((-90 ≤ lat ∧ lat ≤ 90) → (-180 ≤ lon ∧ lon ≤ 180) →
         except_ok (reverse_geocode lat lon) = true))
    ∧ (∀ (α : Type) [inst : LinearOrderedField α] (dist : α → α → α → α → α)
       (olat olon dlat dlon : α) (mode : TransportMode), 90 < olat →
       (calculate_route_gen dist olat olon dlat dlon mode).steps.length = 3
       ∧ (calculate_route_gen dist olat olon dlat dlon mode).distance_meters =
           dist olat olon dlat dlon)
    ∧ (∀ (α : Type) [inst : LinearOrderedCommRing α] (dist : α → α → α → α → α)
       (pois : List (POIResult α)) (lat lon radius : α) (cat : Option String)
       (limit : ℕ), 90 < lat →
       (search_nearby dist pois lat lon radius cat limit).length =
         min limit (search_nearby_all dist pois lat lon radius cat).length) := by
  refine ⟨?_, ?_, ?_⟩
  · intro α inst lat lon
    refine ⟨?_, ?_, ?_⟩
    · intro h
      unfold reverse_geocode
      rw [if_pos h]
    · intro h1 h2
      unfold reverse_geocode
      rw [if_neg (not_not_intro h1), if_pos h2]
    · intro h1 h2
      unfold reverse_geocode
      rw [if_neg (not_not_intro h1), if_neg (not_not_intro h2)]
      rfl
  · intro α inst dist olat olon dlat dlon mode _
    exact ⟨rfl, rfl⟩
  · intro α inst dist pois lat lon radius cat limit _
    exact search_nearby_length dist pois lat lon radius cat limit

/-- Witness for C4: latitude 100 trips the latitude error, longitude 200
trips the longitude error, an in-range pair succeeds, and the
non-validating operations return their normal values at latitude 100. -/
theorem c4_witness :
    reverse_geocode (100 : ℚ) 0 = .error CoordError.invalid_latitude
    ∧ reverse_geocode (0 : ℚ) 200 = .error CoordError.invalid_longitude
    ∧ except_ok (reverse_geocode (40 : ℚ) (-73)) = true
    ∧ (calculate_route_gen (fun a _ _ _ => a) (100 : ℚ) 0 0 0
        TransportMode.driving).steps.length = 3
    ∧ (search_nearby sq_dist witness_pois 100 0 25 none 10).length =
        min 10 (search_nearby_all sq_dist witness_pois 100 0 25 none).length := by
  refine ⟨?_, ?_, ?_, ?_, ?_⟩
  · exact ((c4_range_validation.1 ℚ 100 0).1) (by decide)
  · exact ((c4_range_validation.1 ℚ 0 200).2.1) (by decide) (by decide)
  · exact ((c4_range_validation.1 ℚ 40 (-73)).2.2) (by decide) (by decide)
  · exact ((c4_range_validation.2.1 ℚ (fun a _ _ _ => a) 100 0 0 0
      TransportMode.driving) (by decide)).1
  · exact c4_range_validation.2.2 ℤ sq_dist witness_pois 100 0 25 none 10 (by decide)

/-- Counterexample for C4 as frozen: route calculation at latitude 100
(outside [-90, 90]) does not fail with a coordinate-range error; it
returns its normal simulated three-step route. -/
theorem c4_counterexample :
    (calculate_route 100 0 0 0 TransportMode.driving).steps.length = 3
    ∧ ¬((100 : ℝ) ≤ 90) := ⟨rfl, by norm_num⟩

/-- C9.  `batch_geocode` maps each address to its own outcome: the
output has one entry per address in input order; an address whose lookup
failed maps to `[]` while a successful address maps to its own results,
regardless of the other addresses (the batch splits over concatenation,
so a failure never aborts or affects its siblings); in particular a
valid/failing pair produces `[results, []]`. -/
theorem c9_batch_geocode_order_and_isolation :
    (∀ (α : Type) (fg : String → Except String (List (GeocodingResult α)))
       (addresses : List String),
       (batch_geocode fg addresses).length = addresses.length)
    ∧ (∀ (α : Type) (fg : String → Except String (List (GeocodingResult α)))
       (addresses : List String) (i : ℕ) (a e : String),
       addresses[i]? = some a → fg a = .error e →
       (batch_geocode fg addresses)[i]? = some [])
    ∧ (∀ (α : Type) (fg : String → Except String (List (GeocodingResult α)))
       (addresses : List String) (i : ℕ) (a : String)
       (rs : List (GeocodingResult α)),
       addresses[i]? = some a → fg a = .ok rs →
       (batch_geocode fg addresses)[i]? = some rs)
    ∧ (∀ (α : Type) (fg : String → Except String (List (GeocodingResult α)))
       (l1 l2 : List String),
       batch_geocode fg (l1 ++ l2) = batch_geocode fg l1 ++ batch_geocode fg l2)
    ∧ (∀ (α : Type) (fg : String → Except String (List (GeocodingResult α)))
       (a b e : String) (rs : List (GeocodingResult α)),
       fg a = .ok rs → fg b = .error e →
       batch_geocode fg [a, b] = [rs, []]) := by
  refine ⟨?_, ?_, ?_, ?_, ?_⟩
  · intro α fg addresses
    exact List.length_map addresses _
  · intro α fg addresses i a e hi hf
    unfold batch_geocode
    rw [List.getElem?_map, hi]
    simp [hf]
  · intro α fg addresses i a rs hi hf
    unfold batch_geocode
    rw [List.getElem?_map, hi]
    simp [hf]
  · intro α fg l1 l2
    exact List.map_append _ l1 l2
  · intro α fg a b e rs ha hb
    simp [batch_geocode, ha, hb]

/-- Witness for C9: the spec's valid/failing pair maps to a non-empty
first entry and an empty second entry. -/
theorem c9_witness :
    batch_geocode
      (fun a => if a = "ValidAddress"
        then Except.ok [({ address := "ok", latitude := 1, longitude := 2,
                           confidence := 1 } : GeocodingResult ℤ)]
        else Except.error "boom")
      ["ValidAddress", "CausesFailure"] =
      [[({ address := "ok", latitude := 1, longitude := 2,
           confidence := 1 } : GeocodingResult ℤ)], []] :=
  c9_batch_geocode_order_and_isolation.2.2.2.2 ℤ _ "ValidAddress" "CausesFailure"
    "boom" _ rfl rfl

/-- C7.  The three mock steps of every calculated route carry exactly
0.3, 0.5 and 0.2 of the total distance, so the step distances sum to the
route's `distance_meters` exactly in the real-number model, and in
particular to within the claimed 1-meter tolerance. -/
theorem c7_step_distances_sum :
    ∀ (origin_lat origin_lon dest_lat dest_lon : ℝ) (mode : TransportMode),
      (((calculate_route origin_lat origin_lon dest_lat dest_lon mode).steps.map
          RouteStep.distance_meters).sum =
        (calculate_route origin_lat origin_lon dest_lat dest_lon mode).distance_meters)
      ∧ |((calculate_route origin_lat origin_lon dest_lat dest_lon mode).steps.map
          RouteStep.distance_meters).sum -
         (calculate_route origin_lat origin_lon dest_lat dest_lon mode).distance_meters| ≤ 1 := by
  intro origin_lat origin_lon dest_lat dest_lon mode
  have h : (((calculate_route origin_lat origin_lon dest_lat dest_lon mode).steps.map
      RouteStep.distance_meters).sum =
      (calculate_route origin_lat origin_lon dest_lat dest_lon mode).distance_meters) := by
    show calculate_haversine_distance origin_lat origin_lon dest_lat dest_lon * 0.3 +
        (calculate_haversine_distance origin_lat origin_lon dest_lat dest_lon * 0.5 +
          (calculate_haversine_distance origin_lat origin_lon dest_lat dest_lon * 0.2 + 0)) =
        calculate_haversine_distance origin_lat origin_lon dest_lat dest_lon
    ring
  refine ⟨h, ?_⟩
  rw [h]
  simp

/-- Degrees-to-radians of zero. -/
theorem radians_zero : radians 0 = 0 := by unfold radians; ring

/-- Negating the angle negates the half-radian value. -/
theorem radians_neg_half (d : ℝ) : radians (-d) / 2 = -(radians d / 2) := by
  unfold radians; ring

/-- Squared sine is even. -/
theorem sin_sq_even (x : ℝ) : Real.sin (-x) ^ 2 = Real.sin x ^ 2 := by
  rw [Real.sin_neg]; ring

/-- Haversine parameter of a point with itself is zero. -/
theorem hav_a_self (lat lon : ℝ) : hav_a lat lon lat lon = 0 := by
  unfold hav_a
  rw [sub_self, sub_self, radians_zero]
  norm_num

/-- Haversine distance of a point with itself is zero. -/
theorem haversine_self (lat lon : ℝ) :
    calculate_haversine_distance lat lon lat lon = 0 := by
  unfold calculate_haversine_distance
  rw [hav_a_self]
  unfold atan2
  norm_num

/-- With the parameter `a` in `[0, 1)`, the Haversine formula is
`2 R arcsin √a`. -/
theorem haversine_eq_arcsin (lat1 lon1 lat2 lon2 : ℝ)
    (h0 : 0 ≤ hav_a lat1 lon1 lat2 lon2) (h1 : hav_a lat1 lon1 lat2 lon2 < 1) :
    calculate_haversine_distance lat1 lon1 lat2 lon2 =
      12742000 * Real.arcsin (Real.sqrt (hav_a lat1 lon1 lat2 lon2)) := by
  unfold calculate_haversine_distance
  have hx : 0 < Real.sqrt (1 - hav_a lat1 lon1 lat2 lon2) :=
    Real.sqrt_pos.mpr (by linarith)
  unfold atan2
  rw [if_pos hx]
  have hs1 : Real.sqrt (hav_a lat1 lon1 lat2 lon2) < 1 := by
    rw [Real.sqrt_lt' one_pos]
    linarith
  have harc : Real.arcsin (Real.sqrt (hav_a lat1 lon1 lat2 lon2)) =
      Real.arctan (Real.sqrt (hav_a lat1 lon1 lat2 lon2) /
        Real.sqrt (1 - Real.sqrt (hav_a lat1 lon1 lat2 lon2) ^ 2)) :=
    Real.arcsin_eq_arctan
      ⟨by linarith [Real.sqrt_nonneg (hav_a lat1 lon1 lat2 lon2)], hs1⟩
  rw [Real.sq_sqrt h0] at harc
  rw [← harc]
  ring

/-- Lower bound on the Haversine distance from a lower bound on `√a`. -/
theorem haversine_lower (lat1 lon1 lat2 lon2 c : ℝ)
    (hc : 0 ≤ c) (h0 : 0 ≤ hav_a lat1 lon1 lat2 lon2)
    (h1 : hav_a lat1 lon1 lat2 lon2 < 1)
    (hca : c ^ 2 ≤ hav_a lat1 lon1 lat2 lon2) :
    12742000 * c ≤ calculate_haversine_distance lat1 lon1 lat2 lon2 := by
  rw [haversine_eq_arcsin lat1 lon1 lat2 lon2 h0 h1]
  have hsq : c ≤ Real.sqrt (hav_a lat1 lon1 lat2 lon2) :=
    (Real.le_sqrt hc h0).mpr hca
  have hs_le_one : Real.sqrt (hav_a lat1 lon1 lat2 lon2) ≤ 1 :=
    Real.sqrt_le_one.mpr (le_of_lt h1)
  have hy0 : 0 ≤ Real.arcsin (Real.sqrt (hav_a lat1 lon1 lat2 lon2)) :=
    Real.arcsin_nonneg.mpr (Real.sqrt_nonneg _)
  have hsin : Real.sin (Real.arcsin (Real.sqrt (hav_a lat1 lon1 lat2 lon2))) =
      Real.sqrt (hav_a lat1 lon1 lat2 lon2) :=
    Real.sin_arcsin (by linarith [Real.sqrt_nonneg (hav_a lat1 lon1 lat2 lon2)])
      hs_le_one
  have harc_ge : Real.sqrt (hav_a lat1 lon1 lat2 lon2) ≤
      Real.arcsin (Real.sqrt (hav_a lat1 lon1 lat2 lon2)) := by
    rcases eq_or_lt_of_le hy0 with h | h
    · have hz : Real.sqrt (hav_a lat1 lon1 lat2 lon2) = 0 := by
        rw [← hsin, ← h, Real.sin_zero]
      rw [hz]
      simp
    · have hlt := Real.sin_lt h
      rw [hsin] at hlt
      linarith
  linarith

/-- Upper bound on the Haversine distance from an upper bound on `a`. -/
theorem haversine_upper (lat1 lon1 lat2 lon2 C : ℝ)
    (hC0 : 0 < C) (hC1 : C ≤ 1)
    (h0 : 0 ≤ hav_a lat1 lon1 lat2 lon2)
    (hup : hav_a lat1 lon1 lat2 lon2 ≤ (C - C ^ 3 / 4) ^ 2) :
    calculate_haversine_distance lat1 lon1 lat2 lon2 ≤ 12742000 * C := by
  have hC3 : 0 < C ^ 3 := pow_pos hC0 3
  have hC2 : C ^ 2 ≤ 1 := by nlinarith
  have hC3' : C ^ 3 ≤ C := by nlinarith [hC2, hC0.le]
  have hcc : 0 < C - C ^ 3 / 4 := by linarith
  have hcc1 : C - C ^ 3 / 4 < 1 := by linarith
  have h1 : hav_a lat1 lon1 lat2 lon2 < 1 := by nlinarith
  rw [haversine_eq_arcsin lat1 lon1 lat2 lon2 h0 h1]
  have hsqrt : Real.sqrt (hav_a lat1 lon1 lat2 lon2) ≤ C - C ^ 3 / 4 := by
    have h2 := Real.sqrt_le_sqrt hup
    rwa [Real.sqrt_sq (le_of_lt hcc)] at h2
  have hsin : C - C ^ 3 / 4 < Real.sin C := Real.sin_gt_sub_cube hC0 hC1
  have hmid : Real.arcsin (Real.sqrt (hav_a lat1 lon1 lat2 lon2)) ≤
      Real.arcsin (Real.sin C) := Real.monotone_arcsin (by linarith)
  have hpi := Real.pi_gt_three
  have harc : Real.arcsin (Real.sin C) = C :=
    Real.arcsin_sin (by linarith) (by linarith)
  rw [harc] at hmid
  linarith

/-- Lower bound on a half-radian value from the rational lower bound on
`π`. -/
theorem rad_half_lb (d lo : ℝ) (hd : 0 ≤ d) (h : lo ≤ d / 360 * 3.141592) :
    lo ≤ radians d / 2 := by
  have hπ := Real.pi_gt_d6
  have h2 : d / 360 * 3.141592 ≤ d / 360 * Real.pi :=
    mul_le_mul_of_nonneg_left (le_of_lt hπ) (by positivity)
  have h3 : radians d / 2 = d / 360 * Real.pi := by unfold radians; ring
  linarith

/-- Upper bound on a half-radian value from the rational upper bound on
`π`. -/
theorem rad_half_ub (d hi : ℝ) (hd : 0 ≤ d) (h : d / 360 * 3.141593 ≤ hi) :
    radians d / 2 ≤ hi := by
  have hπ := Real.pi_lt_d6
  have h2 : d / 360 * Real.pi ≤ d / 360 * 3.141593 :=
    mul_le_mul_of_nonneg_left (le_of_lt hπ) (by positivity)
  have h3 : radians d / 2 = d / 360 * Real.pi := by unfold radians; ring
  linarith

/-- Square of the sine bounded below through `sin x > x - x³/4`. -/
theorem sin_sq_ge (x c : ℝ) (hc : 0 ≤ c) (hx0 : 0 < x) (hx1 : x ≤ 1)
    (h : c ≤ x - x ^ 3 / 4) : c ^ 2 ≤ Real.sin x ^ 2 := by
  have hs := Real.sin_gt_sub_cube hx0 hx1
  exact pow_le_pow_left₀ hc (by linarith) 2

/-- Transport of a `x - x³/4` lower bound along interval bounds for
`x`. -/
theorem sub_cube_ge {x c lo hi : ℝ} (h1 : lo ≤ x) (h2 : x ≤ hi) (h0 : 0 ≤ lo)
    (hc : c ≤ lo - hi ^ 3 / 4) : c ≤ x - x ^ 3 / 4 := by
  have hx0 : 0 ≤ x := le_trans h0 h1
  have h3 : x ^ 3 ≤ hi ^ 3 := pow_le_pow_left₀ hx0 h2 3
  linarith

/-- Cosine of an in-range latitude (in radians) is nonnegative. -/
theorem cos_radians_nonneg (lat : ℝ) (h1 : -90 ≤ lat) (h2 : lat ≤ 90) :
    0 ≤ Real.cos (radians lat) := by
  have hπ := Real.pi_pos
  apply Real.cos_nonneg_of_neg_pi_div_two_le_of_le
  · unfold radians
    nlinarith
  · unfold radians
    nlinarith

/-- Upper bound on the Haversine parameter by the squared half-angles. -/
theorem hav_a_le (lat1 lon1 lat2 lon2 : ℝ)
    (hc1 : 0 ≤ Real.cos (radians lat1)) (hc2 : 0 ≤ Real.cos (radians lat2)) :
    hav_a lat1 lon1 lat2 lon2 ≤
      (radians (lat2 - lat1) / 2) ^ 2 + (radians (lon2 - lon1) / 2) ^ 2 := by
  unfold hav_a
  have h1 := Real.sin_sq_le_sq (x := radians (lat2 - lat1) / 2)
  have h2 := Real.sin_sq_le_sq (x := radians (lon2 - lon1) / 2)
  have h3 : Real.cos (radians lat1) ≤ 1 := Real.cos_le_one _
  have h4 : Real.cos (radians lat2) ≤ 1 := Real.cos_le_one _
  have h5 : (0:ℝ) ≤ Real.sin (radians (lon2 - lon1) / 2) ^ 2 := sq_nonneg _
  have hP1 : Real.cos (radians lat1) * Real.cos (radians lat2) ≤ 1 := by
    nlinarith [mul_le_mul_of_nonneg_right h3 hc2]
  have h6 : Real.cos (radians lat1) * Real.cos (radians lat2) *
      Real.sin (radians (lon2 - lon1) / 2) ^ 2 ≤
      Real.sin (radians (lon2 - lon1) / 2) ^ 2 := by
    nlinarith [mul_le_mul_of_nonneg_right hP1 h5]
  linarith

/-- Lower bound on the Haversine parameter by the latitude term alone. -/
theorem hav_a_ge_lat (lat1 lon1 lat2 lon2 : ℝ)
    (hcc : 0 ≤ Real.cos (radians lat1) * Real.cos (radians lat2)) :
    Real.sin (radians (lat2 - lat1) / 2) ^ 2 ≤ hav_a lat1 lon1 lat2 lon2 := by
  unfold hav_a
  nlinarith [sq_nonneg (Real.sin (radians (lon2 - lon1) / 2))]

/-- Lower bound: Empire State Building to Central Park is at least
3500 m. -/
theorem hav_esb_cp_low :
    3500 ≤ calculate_haversine_distance 40.7484 (-73.9857) 40.7829 (-73.9654) := by
  have hc1 : 0 ≤ Real.cos (radians 40.7484) :=
    cos_radians_nonneg _ (by norm_num) (by norm_num)
  have hc2 : 0 ≤ Real.cos (radians 40.7829) :=
    cos_radians_nonneg _ (by norm_num) (by norm_num)
  have hdlat : (40.7829:ℝ) - 40.7484 = 0.0345 := by norm_num
  have hdlon : (-73.9654:ℝ) - (-73.9857) = 0.0203 := by norm_num
  have hu_lo : (0.00030106 : ℝ) ≤ radians 0.0345 / 2 :=
    rad_half_lb _ _ (by norm_num) (by norm_num)
  have hu_hi : radians (0.0345 : ℝ) / 2 ≤ 0.00030107 :=
    rad_half_ub _ _ (by norm_num) (by norm_num)
  have hv_lo : (0 : ℝ) ≤ radians 0.0203 / 2 :=
    rad_half_lb _ _ (by norm_num) (by norm_num)
  have hv_hi : radians (0.0203 : ℝ) / 2 ≤ 0.00017716 :=
    rad_half_ub _ _ (by norm_num) (by norm_num)
  have hsin_ge : ((7:ℝ)/25484) ^ 2 ≤ Real.sin (radians 0.0345 / 2) ^ 2 :=
    sin_sq_ge _ _ (by norm_num) (lt_of_lt_of_le (by norm_num) hu_lo)
      (le_trans hu_hi (by norm_num))
      (sub_cube_ge hu_lo hu_hi (by norm_num) (by norm_num))
  have hge : Real.sin (radians ((40.7829:ℝ) - 40.7484) / 2) ^ 2 ≤
      hav_a 40.7484 (-73.9857) 40.7829 (-73.9654) :=
    hav_a_ge_lat _ _ _ _ (mul_nonneg hc1 hc2)
  rw [hdlat] at hge
  have h0 : 0 ≤ hav_a 40.7484 (-73.9857) 40.7829 (-73.9654) :=
    le_trans (sq_nonneg _) hge
  have hle := hav_a_le 40.7484 (-73.9857) 40.7829 (-73.9654) hc1 hc2
  rw [hdlat, hdlon] at hle
  have hu_sq : (radians (0.0345:ℝ) / 2) ^ 2 ≤ 0.00030107 ^ 2 :=
    pow_le_pow_left₀ (le_trans (by norm_num) hu_lo) hu_hi 2
  have hv_sq : (radians (0.0203:ℝ) / 2) ^ 2 ≤ 0.00017716 ^ 2 :=
    pow_le_pow_left₀ hv_lo hv_hi 2
  have hsmall : (0.00030107:ℝ) ^ 2 + 0.00017716 ^ 2 < 1 := by norm_num
  have h1 : hav_a 40.7484 (-73.9857) 40.7829 (-73.9654) < 1 := by linarith
  have hmain := haversine_lower 40.7484 (-73.9857) 40.7829 (-73.9654) (7/25484)
    (by norm_num) h0 h1 (le_trans hsin_ge hge)
  have heq : (12742000:ℝ) * (7/25484) = 3500 := by norm_num
  linarith

/-- Upper bound: Empire State Building to Central Park is at most
4500 m. -/
theorem hav_esb_cp_high :
    calculate_haversine_distance 40.7484 (-73.9857) 40.7829 (-73.9654) ≤ 4500 := by
  have hc1 : 0 ≤ Real.cos (radians 40.7484) :=
    cos_radians_nonneg _ (by norm_num) (by norm_num)
  have hc2 : 0 ≤ Real.cos (radians 40.7829) :=
    cos_radians_nonneg _ (by norm_num) (by norm_num)
  have hdlat : (40.7829:ℝ) - 40.7484 = 0.0345 := by norm_num
  have hdlon : (-73.9654:ℝ) - (-73.9857) = 0.0203 := by norm_num
  have hu_lo : (0.00030106 : ℝ) ≤ radians 0.0345 / 2 :=
    rad_half_lb _ _ (by norm_num) (by norm_num)
  have hu_hi : radians (0.0345 : ℝ) / 2 ≤ 0.00030107 :=
    rad_half_ub _ _ (by norm_num) (by norm_num)
  have hv_lo : (0 : ℝ) ≤ radians 0.0203 / 2 :=
    rad_half_lb _ _ (by norm_num) (by norm_num)
  have hv_hi : radians (0.0203 : ℝ) / 2 ≤ 0.00017716 :=
    rad_half_ub _ _ (by norm_num) (by norm_num)
  have hge : Real.sin (radians ((40.7829:ℝ) - 40.7484) / 2) ^ 2 ≤
      hav_a 40.7484 (-73.9857) 40.7829 (-73.9654) :=
    hav_a_ge_lat _ _ _ _ (mul_nonneg hc1 hc2)
  have h0 : 0 ≤ hav_a 40.7484 (-73.9857) 40.7829 (-73.9654) :=
    le_trans (sq_nonneg _) hge
  have hle := hav_a_le 40.7484 (-73.9857) 40.7829 (-73.9654) hc1 hc2
  rw [hdlat, hdlon] at hle
  have hu_sq : (radians (0.0345:ℝ) / 2) ^ 2 ≤ 0.00030107 ^ 2 :=
    pow_le_pow_left₀ (le_trans (by norm_num) hu_lo) hu_hi 2
  have hv_sq : (radians (0.0203:ℝ) / 2) ^ 2 ≤ 0.00017716 ^ 2 :=
    pow_le_pow_left₀ hv_lo hv_hi 2
  have hup : hav_a 40.7484 (-73.9857) 40.7829 (-73.9654) ≤
      ((9:ℝ)/25484 - (9/25484) ^ 3 / 4) ^ 2 := by
    have hrat : (0.00030107:ℝ) ^ 2 + 0.00017716 ^ 2 ≤
        ((9:ℝ)/25484 - (9/25484) ^ 3 / 4) ^ 2 := by norm_num
    linarith
  have hmain := haversine_upper 40.7484 (-73.9857) 40.7829 (-73.9654) (9/25484)
    (by norm_num) (by norm_num) h0 hup
  have heq : (12742000:ℝ) * (9/25484) = 4500 := by norm_num
  linarith

/-- C8.  The Haversine distance of any point with itself is zero, and
the distance between the Empire State Building (40.7484, -73.9857) and
Central Park (40.7829, -73.9654) lies in [3500, 4500] meters. -/
theorem c8_haversine_distance :
    (∀ lat lon : ℝ, calculate_haversine_distance lat lon lat lon = 0)
    ∧ 3500 ≤ calculate_haversine_distance 40.7484 (-73.9857) 40.7829 (-73.9654)
    ∧ calculate_haversine_distance 40.7484 (-73.9857) 40.7829 (-73.9654) ≤ 4500 :=
  ⟨haversine_self, hav_esb_cp_low, hav_esb_cp_high⟩

/-- Any pair of in-range latitudes whose latitude gap is between 0.02
and 0.1 degrees (and longitude gap at most 0.1 degrees) is more than
1000 m apart. -/
theorem haversine_far (lat1 lon1 lat2 lon2 d e : ℝ)
    (h1 : -90 ≤ lat1) (h2 : lat1 ≤ 90) (h3 : -90 ≤ lat2) (h4 : lat2 ≤ 90)
    (hlat : lat2 - lat1 = -d) (hlon : lon2 - lon1 = e)
    (hd1 : 0.02 ≤ d) (hd2 : d ≤ 0.1) (he1 : -0.1 ≤ e) (he2 : e ≤ 0.1) :
    1000 < calculate_haversine_distance lat1 lon1 lat2 lon2 := by
  have hc1 := cos_radians_nonneg lat1 h1 h2
  have hc2 := cos_radians_nonneg lat2 h3 h4
  have hu_lo : (0.000174 : ℝ) ≤ radians d / 2 :=
    rad_half_lb d _ (by linarith) (by nlinarith)
  have hu_hi : radians d / 2 ≤ 0.000873 :=
    rad_half_ub d _ (by linarith) (by nlinarith)
  have hsin_ge : ((1:ℝ)/12000) ^ 2 ≤ Real.sin (radians d / 2) ^ 2 :=
    sin_sq_ge _ _ (by norm_num) (lt_of_lt_of_le (by norm_num) hu_lo)
      (le_trans hu_hi (by norm_num))
      (sub_cube_ge hu_lo hu_hi (by norm_num) (by norm_num))
  have hsin_eq : Real.sin (radians (lat2 - lat1) / 2) ^ 2 =
      Real.sin (radians d / 2) ^ 2 := by
    rw [hlat, radians_neg_half, sin_sq_even]
  have hge0 : Real.sin (radians (lat2 - lat1) / 2) ^ 2 ≤
      hav_a lat1 lon1 lat2 lon2 :=
    hav_a_ge_lat _ _ _ _ (mul_nonneg hc1 hc2)
  rw [hsin_eq] at hge0
  have hge : ((1:ℝ)/12000) ^ 2 ≤ hav_a lat1 lon1 lat2 lon2 :=
    le_trans hsin_ge hge0
  have h0 : 0 ≤ hav_a lat1 lon1 lat2 lon2 := le_trans (by norm_num) hge
  have hle := hav_a_le lat1 lon1 lat2 lon2 hc1 hc2
  have hu_sq : (radians (lat2 - lat1) / 2) ^ 2 ≤ 0.000873 ^ 2 := by
    rw [hlat, radians_neg_half, neg_sq]
    exact pow_le_pow_left₀ (le_trans (by norm_num) hu_lo) hu_hi 2
  have hv_sq : (radians (lon2 - lon1) / 2) ^ 2 ≤ 0.0009 ^ 2 := by
    rw [hlon]
    have hπ := Real.pi_lt_d6
    have hπ0 := Real.pi_pos
    have hee : e ^ 2 ≤ 0.01 := by nlinarith
    have hpp : Real.pi ^ 2 ≤ 9.87 := by nlinarith
    have heq : (radians e / 2) ^ 2 = e ^ 2 * Real.pi ^ 2 / 129600 := by
      unfold radians; ring
    rw [heq]
    nlinarith [mul_le_mul hee hpp (sq_nonneg Real.pi) (by norm_num : (0:ℝ) ≤ 0.01)]
  have hs1 : (0.000873:ℝ) ^ 2 + 0.0009 ^ 2 < 1 := by norm_num
  have h1a : hav_a lat1 lon1 lat2 lon2 < 1 := by linarith
  have hmain := haversine_lower lat1 lon1 lat2 lon2 (1/12000) (by norm_num) h0 h1a hge
  have hval : (1000:ℝ) < 12742000 * (1/12000) := by norm_num
  linarith

/-- Central Park to the Metropolitan Museum is within 1000 m. -/
theorem hav_cp_met_le :
    calculate_haversine_distance 40.7829 (-73.9654) 40.7794 (-73.9632) ≤ 1000 := by
  have hc1 : 0 ≤ Real.cos (radians 40.7829) :=
    cos_radians_nonneg _ (by norm_num) (by norm_num)
  have hc2 : 0 ≤ Real.cos (radians 40.7794) :=
    cos_radians_nonneg _ (by norm_num) (by norm_num)
  have hdlat : (40.7794:ℝ) - 40.7829 = -0.0035 := by norm_num
  have hdlon : (-73.9632:ℝ) - (-73.9654) = 0.0022 := by norm_num
  have hu_lo : (0 : ℝ) ≤ radians 0.0035 / 2 :=
    rad_half_lb _ _ (by norm_num) (by norm_num)
  have hu_hi : radians (0.0035 : ℝ) / 2 ≤ 0.0000306 :=
    rad_half_ub _ _ (by norm_num) (by norm_num)
  have hv_lo : (0 : ℝ) ≤ radians 0.0022 / 2 :=
    rad_half_lb _ _ (by norm_num) (by norm_num)
  have hv_hi : radians (0.0022 : ℝ) / 2 ≤ 0.0000192 :=
    rad_half_ub _ _ (by norm_num) (by norm_num)
  have hge : Real.sin (radians ((40.7794:ℝ) - 40.7829) / 2) ^ 2 ≤
      hav_a 40.7829 (-73.9654) 40.7794 (-73.9632) :=
    hav_a_ge_lat _ _ _ _ (mul_nonneg hc1 hc2)
  have h0 : 0 ≤ hav_a 40.7829 (-73.9654) 40.7794 (-73.9632) :=
    le_trans (sq_nonneg _) hge
  have hle := hav_a_le 40.7829 (-73.9654) 40.7794 (-73.9632) hc1 hc2
  rw [hdlat, hdlon, radians_neg_half, neg_sq] at hle
  have hu_sq : (radians (0.0035:ℝ) / 2) ^ 2 ≤ 0.0000306 ^ 2 :=
    pow_le_pow_left₀ hu_lo hu_hi 2
  have hv_sq : (radians (0.0022:ℝ) / 2) ^ 2 ≤ 0.0000192 ^ 2 :=
    pow_le_pow_left₀ hv_lo hv_hi 2
  have hup : hav_a 40.7829 (-73.9654) 40.7794 (-73.9632) ≤
      ((1:ℝ)/12742 - (1/12742) ^ 3 / 4) ^ 2 := by
    have hrat : (0.0000306:ℝ) ^ 2 + 0.0000192 ^ 2 ≤
        ((1:ℝ)/12742 - (1/12742) ^ 3 / 4) ^ 2 := by norm_num
    linarith
  have hmain := haversine_upper 40.7829 (-73.9654) 40.7794 (-73.9632) (1/12742)
    (by norm_num) (by norm_num) h0 hup
  have heq : (12742000:ℝ) * (1/12742) = 1000 := by norm_num
  linarith

/-- Central Park and the Metropolitan Museum are a positive distance
apart. -/
theorem hav_cp_met_pos :
    0 < calculate_haversine_distance 40.7829 (-73.9654) 40.7794 (-73.9632) := by
  have hc1 : 0 ≤ Real.cos (radians 40.7829) :=
    cos_radians_nonneg _ (by norm_num) (by norm_num)
  have hc2 : 0 ≤ Real.cos (radians 40.7794) :=
    cos_radians_nonneg _ (by norm_num) (by norm_num)
  have hdlat : (40.7794:ℝ) - 40.7829 = -0.0035 := by norm_num
  have hdlon : (-73.9632:ℝ) - (-73.9654) = 0.0022 := by norm_num
  have hu_lo : (0.0000305 : ℝ) ≤ radians 0.0035 / 2 :=
    rad_half_lb _ _ (by norm_num) (by norm_num)
  have hu_hi : radians (0.0035 : ℝ) / 2 ≤ 0.0000306 :=
    rad_half_ub _ _ (by norm_num) (by norm_num)
  have hv_lo : (0 : ℝ) ≤ radians 0.0022 / 2 :=
    rad_half_lb _ _ (by norm_num) (by norm_num)
  have hv_hi : radians (0.0022 : ℝ) / 2 ≤ 0.0000192 :=
    rad_half_ub _ _ (by norm_num) (by norm_num)
  have hsin_ge : ((1:ℝ)/100000) ^ 2 ≤ Real.sin (radians 0.0035 / 2) ^ 2 :=
    sin_sq_ge _ _ (by norm_num) (lt_of_lt_of_le (by norm_num) hu_lo)
      (le_trans hu_hi (by norm_num))
      (sub_cube_ge hu_lo hu_hi (by norm_num) (by norm_num))
  have hge0 : Real.sin (radians ((40.7794:ℝ) - 40.7829) / 2) ^ 2 ≤
      hav_a 40.7829 (-73.9654) 40.7794 (-73.9632) :=
    hav_a_ge_lat _ _ _ _ (mul_nonneg hc1 hc2)
  rw [hdlat, radians_neg_half, sin_sq_even] at hge0
  have hge : ((1:ℝ)/100000) ^ 2 ≤ hav_a 40.7829 (-73.9654) 40.7794 (-73.9632) :=
    le_trans hsin_ge hge0
  have h0 : 0 ≤ hav_a 40.7829 (-73.9654) 40.7794 (-73.9632) :=
    le_trans (by norm_num) hge
  have hle := hav_a_le 40.7829 (-73.9654) 40.7794 (-73.9632) hc1 hc2
  rw [hdlat, hdlon, radians_neg_half, neg_sq] at hle
  have hu_sq : (radians (0.0035:ℝ) / 2) ^ 2 ≤ 0.0000306 ^ 2 :=
    pow_le_pow_left₀ (le_trans (by norm_num) hu_lo) hu_hi 2
  have hv_sq : (radians (0.0022:ℝ) / 2) ^ 2 ≤ 0.0000192 ^ 2 :=
    pow_le_pow_left₀ hv_lo hv_hi 2
  have hsmall : (0.0000306:ℝ) ^ 2 + 0.0000192 ^ 2 < 1 := by norm_num
  have h1a : hav_a 40.7829 (-73.9654) 40.7794 (-73.9632) < 1 := by linarith
  have hmain := haversine_lower 40.7829 (-73.9654) 40.7794 (-73.9632) (1/100000)
    (by norm_num) h0 h1a hge
  have hval : (0:ℝ) < 12742000 * (1/100000) := by norm_num
  linarith

/-- Filtering pass of `search_nearby` centred on Central Park with a
1000 m radius: only Central Park itself (distance 0) and the
Metropolitan Museum survive. -/
theorem search_all_cp_1000 :
    search_nearby_all calculate_haversine_distance (mock_pois ℝ)
      40.7829 (-73.9654) 1000 none = [cp_hit, met_hit] := by
  have hesb := haversine_far 40.7829 (-73.9654) 40.7484 (-73.9857) 0.0345 (-0.0203)
    (by norm_num) (by norm_num) (by norm_num) (by norm_num) (by norm_num)
    (by norm_num) (by norm_num) (by norm_num) (by norm_num) (by norm_num)
  have hjoes := haversine_far 40.7829 (-73.9654) 40.7308 (-74.0023) 0.0521 (-0.0369)
    (by norm_num) (by norm_num) (by norm_num) (by norm_num) (by norm_num)
    (by norm_num) (by norm_num) (by norm_num) (by norm_num) (by norm_num)
  have hsb := haversine_far 40.7829 (-73.9654) 40.7411 (-73.9897) 0.0418 (-0.0243)
    (by norm_num) (by norm_num) (by norm_num) (by norm_num) (by norm_num)
    (by norm_num) (by norm_num) (by norm_num) (by norm_num) (by norm_num)
  have hts := haversine_far 40.7829 (-73.9654) 40.7580 (-73.9855) 0.0249 (-0.0201)
    (by norm_num) (by norm_num) (by norm_num) (by norm_num) (by norm_num)
    (by norm_num) (by norm_num) (by norm_num) (by norm_num) (by norm_num)
  have hbbp := haversine_far 40.7829 (-73.9654) 40.7009 (-73.9969) 0.0820 (-0.0315)
    (by norm_num) (by norm_num) (by norm_num) (by norm_num) (by norm_num)
    (by norm_num) (by norm_num) (by norm_num) (by norm_num) (by norm_num)
  have hgc := haversine_far 40.7829 (-73.9654) 40.7527 (-73.9772) 0.0302 (-0.0118)
    (by norm_num) (by norm_num) (by norm_num) (by norm_num) (by norm_num)
    (by norm_num) (by norm_num) (by norm_num) (by norm_num) (by norm_num)
  have c_cp : calculate_haversine_distance 40.7829 (-73.9654) 40.7829 (-73.9654) ≤ 1000
      ∧ category_ok none "park" :=
    ⟨by rw [haversine_self]; norm_num, Or.inl rfl⟩
  have c_esb : ¬(calculate_haversine_distance 40.7829 (-73.9654) 40.7484 (-73.9857) ≤ 1000
      ∧ category_ok none "landmark") := fun h => absurd h.1 (not_le.mpr hesb)
  have c_joes : ¬(calculate_haversine_distance 40.7829 (-73.9654) 40.7308 (-74.0023) ≤ 1000
      ∧ category_ok none "restaurant") := fun h => absurd h.1 (not_le.mpr hjoes)
  have c_met : calculate_haversine_distance 40.7829 (-73.9654) 40.7794 (-73.9632) ≤ 1000
      ∧ category_ok none "museum" := ⟨hav_cp_met_le, Or.inl rfl⟩
  have c_sb : ¬(calculate_haversine_distance 40.7829 (-73.9654) 40.7411 (-73.9897) ≤ 1000
      ∧ category_ok none "cafe") := fun h => absurd h.1 (not_le.mpr hsb)
  have c_ts : ¬(calculate_haversine_distance 40.7829 (-73.9654) 40.7580 (-73.9855) ≤ 1000
      ∧ category_ok none "landmark") := fun h => absurd h.1 (not_le.mpr hts)
  have c_bbp : ¬(calculate_haversine_distance 40.7829 (-73.9654) 40.7009 (-73.9969) ≤ 1000
      ∧ category_ok none "park") := fun h => absurd h.1 (not_le.mpr hbbp)
  have c_gc : ¬(calculate_haversine_distance 40.7829 (-73.9654) 40.7527 (-73.9772) ≤ 1000
      ∧ category_ok none "transit_station") := fun h => absurd h.1 (not_le.mpr hgc)
  unfold search_nearby_all mock_pois
  simp only [List.filterMap_cons, List.filterMap_nil]
  rw [if_pos c_cp, if_neg c_esb, if_neg c_joes, if_pos c_met, if_neg c_sb,
      if_neg c_ts, if_neg c_bbp, if_neg c_gc]
  rw [haversine_self]
  rfl

/-- The `distance or inf` sort key maps the zero-distance Central Park
record to infinity, so the stable sort puts it after the museum. -/
theorem insertion_cp_met :
    List.insertionSort dist_le [cp_hit, met_hit] = [met_hit, cp_hit] := by
  have hkey_cp : sort_key cp_hit = ⊤ := by
    show (if (0:ℝ) = 0 then (⊤ : WithTop ℝ) else ((0:ℝ) : WithTop ℝ)) = ⊤
    rw [if_pos rfl]
  have hkey_met : sort_key met_hit =
      ((calculate_haversine_distance 40.7829 (-73.9654) 40.7794 (-73.9632) : ℝ) :
        WithTop ℝ) := by
    show (if calculate_haversine_distance 40.7829 (-73.9654) 40.7794 (-73.9632) = 0
          then (⊤ : WithTop ℝ)
          else ((calculate_haversine_distance 40.7829 (-73.9654) 40.7794 (-73.9632) : ℝ) :
            WithTop ℝ)) = _
    rw [if_neg (ne_of_gt hav_cp_met_pos)]
  have hnot : ¬ dist_le cp_hit met_hit := by
    unfold dist_le
    rw [hkey_cp, hkey_met]
    intro h
    exact absurd (top_le_iff.mp h) (WithTop.coe_ne_top)
  simp only [List.insertionSort, List.orderedInsert]
  rw [if_neg hnot]

/-- C5 fails on the code (evaluation at the failing input): centred
exactly on Central Park with a 1000 m radius, `search_nearby` returns
the museum (positive distance) before Central Park (distance 0), because
the sort key `x.distance_meters or float('inf')` treats the falsy 0.0 as
missing; the distances are not ascending. -/
theorem c5_zero_distance_breaks_sort :
    ((search_nearby calculate_haversine_distance (mock_pois ℝ)
        40.7829 (-73.9654) 1000 none 10).map POIResult.distance_meters =
      [some (calculate_haversine_distance 40.7829 (-73.9654) 40.7794 (-73.9632)),
       some 0])
    ∧ 0 < calculate_haversine_distance 40.7829 (-73.9654) 40.7794 (-73.9632)
    ∧ ¬ ascending_by_distance
        (search_nearby calculate_haversine_distance (mock_pois ℝ)
          40.7829 (-73.9654) 1000 none 10) := by
  have hfull : search_nearby calculate_haversine_distance (mock_pois ℝ)
      40.7829 (-73.9654) 1000 none 10 = [met_hit, cp_hit] := by
    unfold search_nearby
    rw [search_all_cp_1000, insertion_cp_met]
    rfl
  refine ⟨?_, hav_cp_met_pos, ?_⟩
  · rw [hfull]
    rfl
  · rw [hfull]
    unfold ascending_by_distance
    intro h
    rw [show ([met_hit, cp_hit].filterMap POIResult.distance_meters) =
        [calculate_haversine_distance 40.7829 (-73.9654) 40.7794 (-73.9632), 0]
      from rfl] at h
    rw [List.chain'_cons] at h
    exact absurd h.1 (not_le.mpr hav_cp_met_pos)
